import Mathlib

/-!
Shallow embedding of the recycling-node device controller and blockchain
listener (TypeScript source, authoritative variant in src/unnamed/part_003).

The DeviceController owns a serial-port Transport: connection state, an
exponential-backoff reconnection timer, a periodic device-presence check,
a FIFO command queue drained on the open event, and promise-based command
execution.  The asynchronous JavaScript event loop is modelled as a state
machine: each externally visible occurrence (a port event, a timer firing,
a caller invocation, a write-completion callback) is an action, and a step
function computes the successor state together with the list of observable
effects (scheduled timers, port writes, promise settlements).

A key detail carried over faithfully from the source: the reconnect timer
field stores the handle returned by setTimeout and is compared against
null; the timer callback never resets the field, so after the timer fires
the field still holds the (now fired) handle.  TimerHandle distinguishes a
pending handle from a fired one to model exactly this.
-/

/-- Response shape used by the controller for every promise settlement
(interface SerialResponse in the source). -/
structure SerialResponse where
  success : Bool
  message : String
deriving Repr, DecidableEq

/-- A pending command in the queue: the command string together with an
identifier standing for the promise resolve/reject pair captured by the
closure in the source. -/
structure PendingCommand where
  pid : Nat
  command : String
deriving Repr, DecidableEq

/-- Handle stored in the reconnectTimer field: a setTimeout handle that is
either still pending or has already fired.  The source checks the field
against null, never whether the handle is still live. -/
inductive TimerHandle
  | pending
  | fired
deriving Repr, DecidableEq

/-- Observable effects of a controller step. -/
inductive Ev
  | schedTimer (delay : Nat)
  | write (pid : Nat) (cmd : String)
  | resolveCmd (pid : Nat) (r : SerialResponse)
  | rejectCmd (pid : Nat) (r : SerialResponse)
  | resolveConnect (r : SerialResponse)
  | rejectConnect (r : SerialResponse)
  | closePort
deriving Repr, DecidableEq

/-- State of the DeviceController (class DeviceController, part_003).
portPresent models port !== null, portOpen models port.isOpen,
portOpening models a port created with autoOpen whose open outcome has
not yet been delivered.  inflight holds commands whose port.write callback
has not yet run. -/
structure DeviceController where
  portPresent : Bool
  portOpen : Bool
  portOpening : Bool
  isConnected : Bool
  reconnectTimer : Option TimerHandle
  reconnectAttempts : Nat
  commandQueue : List PendingCommand
  inflight : List PendingCommand
  deviceCheckOn : Bool
deriving Repr, DecidableEq

/-- MAX_RECONNECT_ATTEMPTS = Infinity in the authoritative variant; none
models Infinity ("Never give up trying to reconnect"). -/
def MAX_RECONNECT_ATTEMPTS : Option Nat := none

def INITIAL_RECONNECT_DELAY : Nat := 1000

def MAX_RECONNECT_DELAY : Nat := 30000

/-- The guard reconnectAttempts >= MAX_RECONNECT_ATTEMPTS; with the
Infinity bound it is never true for a finite counter. -/
def maxAttemptsReached (attempts : Nat) : Bool :=
  match MAX_RECONNECT_ATTEMPTS with
  | none => false
  | some m => attempts ≥ m

/-- rejectAllQueuedCommands(reason): rejects every queued command in order
with the source's message shape and empties the queue. -/
def DeviceController.rejectAllQueuedCommands (s : DeviceController) (reason : String) :
    DeviceController × List Ev :=
  ({ s with commandQueue := [] },
   s.commandQueue.map fun c =>
     Ev.rejectCmd c.pid
       { success := false, message := "Command " ++ c.command ++ " failed: " ++ reason })

/-- attemptReconnect(): clears any existing timer handle, checks the (here
infinite) attempt bound, computes the capped exponential backoff delay and
schedules a single retry timer.  The scheduled timer, once it fires, is
modelled by DeviceController.fireReconnectTimer. -/
def DeviceController.attemptReconnect (s : DeviceController) : DeviceController × List Ev :=
  let s1 := { s with reconnectTimer := none }
  if maxAttemptsReached s1.reconnectAttempts then
    s1.rejectAllQueuedCommands "Max reconnection attempts reached"
  else
    let delay := min (INITIAL_RECONNECT_DELAY * 2 ^ s1.reconnectAttempts) MAX_RECONNECT_DELAY
    ({ s1 with reconnectTimer := some TimerHandle.pending }, [Ev.schedTimer delay])

/-- startReconnection(): only starts an episode when the stored timer field
is null.  A fired-but-never-cleared handle also blocks this guard, exactly
as in the source. -/
def DeviceController.startReconnection (s : DeviceController) : DeviceController × List Ev :=
  match s.reconnectTimer with
  | none => s.attemptReconnect
  | some _ => (s, [])

/-- executeCommand(command): synchronous part of the promise executor; the
write callback outcome arrives later (DeviceController.onWriteDone). -/
def DeviceController.executeCommand (s : DeviceController) (c : PendingCommand) :
    DeviceController × List Ev :=
  if !s.isConnected then
    (s, [Ev.rejectCmd c.pid { success := false, message := "Device not connected" }])
  else if !s.portPresent then
    (s, [Ev.rejectCmd c.pid { success := false, message := "Port is not initialized" }])
  else
    ({ s with inflight := s.inflight ++ [c] }, [Ev.write c.pid c.command])

/-- The while/shift drain loop of processCommandQueue over an explicit list
of dequeued commands. -/
def DeviceController.drain (s : DeviceController) :
    List PendingCommand → DeviceController × List Ev
  | [] => (s, [])
  | c :: rest =>
    let p := s.executeCommand c
    let q := p.1.drain rest
    (q.1, p.2 ++ q.2)

/-- processCommandQueue(): drains the whole queue front to back; the write
callbacks are asynchronous, so nothing re-enters the queue during the
synchronous loop. -/
def DeviceController.processCommandQueue (s : DeviceController) : DeviceController × List Ev :=
  DeviceController.drain { s with commandQueue := [] } s.commandQueue

/-- The open event handler: marks connected, resets the attempt counter to
zero and drains the queue.  It fires only for a port with an open attempt
in progress.  Note that it does not clear the reconnectTimer field. -/
def DeviceController.onOpen (s : DeviceController) : DeviceController × List Ev :=
  if s.portOpening then
    DeviceController.processCommandQueue
      { s with portOpening := false, portOpen := true, isConnected := true,
               reconnectAttempts := 0 }
  else (s, [])

/-- The error event handler: marks disconnected (an in-progress autoOpen
that errors will not open) and calls startReconnection. -/
def DeviceController.onError (s : DeviceController) : DeviceController × List Ev :=
  DeviceController.startReconnection { s with isConnected := false, portOpening := false }

/-- The close event handler: marks disconnected and calls
startReconnection. -/
def DeviceController.onClose (s : DeviceController) : DeviceController × List Ev :=
  DeviceController.startReconnection { s with isConnected := false, portOpen := false }

/-- recreatePort(): removes the old port listeners (so its close emits no
handled event), closes it if open, and creates a fresh port with autoOpen,
whose open/error outcome the environment later delivers. -/
def DeviceController.recreatePort (s : DeviceController) : DeviceController × List Ev :=
  let evs := if s.portPresent && s.portOpen then [Ev.closePort] else []
  ({ s with portPresent := true, portOpen := false, portOpening := true }, evs)

/-- The reconnect timer firing: runs the setTimeout callback (recreatePort
then increment the attempt counter).  The callback does not null the
reconnectTimer field, so the fired handle stays stored. -/
def DeviceController.fireReconnectTimer (s : DeviceController) : DeviceController × List Ev :=
  match s.reconnectTimer with
  | some TimerHandle.pending =>
    let p := DeviceController.recreatePort { s with reconnectTimer := some TimerHandle.fired }
    ({ p.1 with reconnectAttempts := p.1.reconnectAttempts + 1 }, p.2)
  | _ => (s, [])

/-- sendCommand(command): queue when disconnected (and start reconnection),
execute immediately when connected. -/
def DeviceController.sendCommand (s : DeviceController) (c : PendingCommand) :
    DeviceController × List Ev :=
  if !s.isConnected then
    DeviceController.startReconnection { s with commandQueue := s.commandQueue ++ [c] }
  else
    s.executeCommand c

/-- connect(): already-connected short circuit, null-port rejection,
otherwise reset attempts, cancel any pending retry timer and open the
port.  The open outcome (supplied by the environment as openErr) either
rejects the connect promise, or opens the port: the open event fires
(drain) and the promise resolves. -/
def DeviceController.connect (s : DeviceController) (openErr : Option String) :
    DeviceController × List Ev :=
  if s.isConnected then
    (s, [Ev.resolveConnect { success := true, message := "Already connected" }])
  else if !s.portPresent then
    (s, [Ev.rejectConnect { success := false, message := "Port is not initialized" }])
  else
    let s1 := { s with reconnectAttempts := 0, reconnectTimer := none }
    match openErr with
    | some m =>
      (s1, [Ev.rejectConnect { success := false, message := "Failed to open port: " ++ m }])
    | none =>
      let p := DeviceController.processCommandQueue
        { s1 with portOpen := true, portOpening := false, isConnected := true,
                  reconnectAttempts := 0 }
      (p.1, p.2 ++ [Ev.resolveConnect { success := true, message := "Connected successfully" }])

/-- Removes the first inflight entry with the given identifier, returning
it: the write callback in the source closes over exactly one promise. -/
def takeFirst (pid : Nat) : List PendingCommand → Option (PendingCommand × List PendingCommand)
  | [] => none
  | c :: rest =>
    if c.pid = pid then some (c, rest)
    else
      match takeFirst pid rest with
      | none => none
      | some (d, l) => some (d, c :: l)

/-- The port.write completion callback for one command: on error mark
disconnected and reject, on success resolve. -/
def DeviceController.onWriteDone (s : DeviceController) (pid : Nat) (err : Option String) :
    DeviceController × List Ev :=
  match takeFirst pid s.inflight with
  | none => (s, [])
  | some (c, rest) =>
    match err with
    | some m =>
      ({ s with inflight := rest, isConnected := false },
       [Ev.rejectCmd c.pid { success := false, message := "Failed to send command: " ++ m }])
    | none =>
      ({ s with inflight := rest },
       [Ev.resolveCmd c.pid
         { success := true, message := "Command " ++ c.command ++ " sent successfully" }])

/-- One tick of the periodic device-presence check: when the device exists,
the manager is disconnected and the timer field is null, start
reconnection; when the device vanished while connected, force the port
closed (the close event then arrives asynchronously). -/
def DeviceController.deviceCheckTick (s : DeviceController) (present : Bool) :
    DeviceController × List Ev :=
  if !s.deviceCheckOn then (s, [])
  else if present && !s.isConnected && s.reconnectTimer.isNone then
    s.startReconnection
  else if !present && s.isConnected then
    if s.portPresent && s.portOpen then
      ({ s with portOpen := false }, [Ev.closePort])
    else (s, [])
  else (s, [])

/-- cleanup(): stop the presence-check interval, clear the reconnect timer
field, reject every queued command with the shutdown reason, and close the
port if open.  The port listeners stay attached, so the close event this
triggers is still handled later. -/
def DeviceController.cleanup (s : DeviceController) : DeviceController × List Ev :=
  let p := DeviceController.rejectAllQueuedCommands
    { s with deviceCheckOn := false, reconnectTimer := none } "Application shutting down"
  if p.1.portPresent && p.1.portOpen then
    ({ p.1 with portOpen := false }, p.2 ++ [Ev.closePort])
  else (p.1, p.2)

/-- The constructor: starts the presence check and initializes the port;
with the device absent it goes straight to startReconnection. -/
def DeviceController.create (deviceExists : Bool) : DeviceController × List Ev :=
  let s0 : DeviceController :=
    { portPresent := false, portOpen := false, portOpening := false, isConnected := false,
      reconnectTimer := none, reconnectAttempts := 0, commandQueue := [], inflight := [],
      deviceCheckOn := true }
  if deviceExists then
    ({ s0 with portPresent := true }, [])
  else
    s0.startReconnection

/-- Actions of the controller event loop: port lifecycle events, the timer
firing, presence-check ticks, caller invocations and write callbacks. -/
inductive DCAct
  | evOpen
  | evError
  | evClose
  | fireTimer
  | deviceCheck (present : Bool)
  | send (c : PendingCommand)
  | writeDone (pid : Nat) (err : Option String)
  | connectCall (openErr : Option String)
  | cleanupCall
deriving Repr, DecidableEq

/-- Dispatch of one action to the corresponding source handler. -/
def DeviceController.step (s : DeviceController) : DCAct → DeviceController × List Ev
  | DCAct.evOpen => s.onOpen
  | DCAct.evError => s.onError
  | DCAct.evClose => s.onClose
  | DCAct.fireTimer => s.fireReconnectTimer
  | DCAct.deviceCheck b => s.deviceCheckTick b
  | DCAct.send c => s.sendCommand c
  | DCAct.writeDone pid err => s.onWriteDone pid err
  | DCAct.connectCall e => s.connect e
  | DCAct.cleanupCall => s.cleanup

/-- Runs a list of actions, concatenating the emitted effects. -/
def DeviceController.run (s : DeviceController) : List DCAct → DeviceController × List Ev
  | [] => (s, [])
  | a :: rest =>
    let p := s.step a
    let q := p.1.run rest
    (q.1, p.2 ++ q.2)

/-- Actions the system performs on its own (port events, timers, presence
ticks, queued commands, write callbacks) as opposed to an external caller
manually invoking connect() or cleanup(). -/
def DCAct.isAutonomous : DCAct → Bool
  | DCAct.connectCall _ => false
  | DCAct.cleanupCall => false
  | _ => true

/-- Delays of the scheduled reconnect timers among a list of effects. -/
def schedOf (evs : List Ev) : List Nat :=
  evs.filterMap fun e =>
    match e with
    | Ev.schedTimer d => some d
    | _ => none

/-- Port writes among a list of effects, in order. -/
def writesOf (evs : List Ev) : List (Nat × String) :=
  evs.filterMap fun e =>
    match e with
    | Ev.write pid cmd => some (pid, cmd)
    | _ => none

/-- Identifiers of command promise settlements among a list of effects. -/
def resolvedIds (evs : List Ev) : List Nat :=
  evs.filterMap fun e =>
    match e with
    | Ev.resolveCmd pid _ => some pid
    | Ev.rejectCmd pid _ => some pid
    | _ => none

/-- Identifiers the controller currently owes a settlement to: queued
commands and commands with an outstanding write callback. -/
def DeviceController.obligations (s : DeviceController) : List Nat :=
  s.commandQueue.map PendingCommand.pid ++ s.inflight.map PendingCommand.pid

/-- New settlement obligations created by an action (a sendCommand call
hands the controller one fresh promise). -/
def DCAct.newIds : DCAct → List Nat
  | DCAct.send c => [c.pid]
  | _ => []

/-!
Shallow embedding of class BlockchainListener (the trigger poller).  A
scan is one invocation of the async method checkForEvents; its await
points (getBlockNumber, getLogs, sendCommandWithRetry per event) split it
into a small-step coroutine, so that the setInterval timer firing during a
suspended scan is representable.  The interval callback invokes
checkForEvents unconditionally: there is no in-progress guard in the
source.
-/

/-- Decoded ContentsPurchased event (transient, one dispatch each). -/
structure ChainEvent where
  garbageCanId : Nat
  collector : String
  value : Nat
deriving Repr, DecidableEq

/-- Suspension point of one in-flight checkForEvents invocation. -/
inductive ScanPhase
  | awaitTip
  | awaitLogs (tip : Nat)
  | dispatching (tip : Nat) (pending : List ChainEvent)
deriving Repr, DecidableEq

/-- One in-flight scan, tagged with an identifier. -/
structure Scan where
  sid : Nat
  phase : ScanPhase
deriving Repr, DecidableEq

/-- State of the BlockchainListener: the cursor, whether the polling
interval is armed, and the in-flight checkForEvents invocations. -/
structure BlockchainListener where
  lastBlockChecked : Nat
  pollingOn : Bool
  scans : List Scan
deriving Repr, DecidableEq

/-- Observable effects of a listener step. -/
inductive LEv
  | getLogs (fromBlock toBlock : Nat)
  | dispatchStart (e : ChainEvent)
  | logError
deriving Repr, DecidableEq

/-- Actions of the listener event loop: the interval timer firing (which
starts a new checkForEvents), the provider answering getBlockNumber or
getLogs for a given scan (none models the fetch throwing), one dispatch
attempt finishing, and stopListening. -/
inductive LAct
  | timerTick (sid : Nat)
  | tipArrives (sid : Nat) (tip : Nat)
  | logsArrive (sid : Nat) (res : Option (List ChainEvent))
  | dispatchDone (sid : Nat) (ok : Bool)
  | stopCall
deriving Repr, DecidableEq

/-- Phase of the scan with the given identifier, if in flight. -/
def findScan (sid : Nat) (l : List Scan) : Option ScanPhase :=
  (l.find? fun sc => sc.sid = sid).map Scan.phase

/-- Removes a finished scan. -/
def removeScan (sid : Nat) (l : List Scan) : List Scan :=
  l.filter fun sc => sc.sid ≠ sid

/-- Moves the scan with the given identifier to a new suspension point. -/
def setScan (sid : Nat) (ph : ScanPhase) (l : List Scan) : List Scan :=
  l.map fun sc => if sc.sid = sid then { sc with phase := ph } else sc

/-- Dispatch of one listener action, following checkForEvents line by
line: the tip check against the current cursor, the getLogs call over
(lastBlockChecked+1, tip], the per-event dispatch loop whose failures are
caught and logged, the cursor assignment after the loop, and the outer
catch that swallows a fetch error without touching the cursor. -/
def BlockchainListener.step (s : BlockchainListener) :
    LAct → BlockchainListener × List LEv
  | LAct.timerTick sid =>
    if s.pollingOn then
      ({ s with scans := s.scans ++ [{ sid := sid, phase := ScanPhase.awaitTip }] }, [])
    else (s, [])
  | LAct.tipArrives sid tip =>
    match findScan sid s.scans with
    | some ScanPhase.awaitTip =>
      if tip ≤ s.lastBlockChecked then
        ({ s with scans := removeScan sid s.scans }, [])
      else
        ({ s with scans := setScan sid (ScanPhase.awaitLogs tip) s.scans },
         [LEv.getLogs (s.lastBlockChecked + 1) tip])
    | _ => (s, [])
  | LAct.logsArrive sid res =>
    match findScan sid s.scans with
    | some (ScanPhase.awaitLogs tip) =>
      match res with
      | none => ({ s with scans := removeScan sid s.scans }, [LEv.logError])
      | some [] =>
        ({ s with lastBlockChecked := tip, scans := removeScan sid s.scans }, [])
      | some (e :: rest) =>
        ({ s with scans := setScan sid (ScanPhase.dispatching tip (e :: rest)) s.scans },
         [LEv.dispatchStart e])
    | _ => (s, [])
  | LAct.dispatchDone sid _ =>
    match findScan sid s.scans with
    | some (ScanPhase.dispatching tip pending) =>
      match pending with
      | [] => ({ s with lastBlockChecked := tip, scans := removeScan sid s.scans }, [])
      | [_] => ({ s with lastBlockChecked := tip, scans := removeScan sid s.scans }, [])
      | _ :: f :: rest =>
        ({ s with scans := setScan sid (ScanPhase.dispatching tip (f :: rest)) s.scans },
         [LEv.dispatchStart f])
    | _ => (s, [])
  | LAct.stopCall => ({ s with pollingOn := false }, [])

/-- Runs a list of listener actions, concatenating the effects. -/
def BlockchainListener.run (s : BlockchainListener) :
    List LAct → BlockchainListener × List LEv
  | [] => (s, [])
  | a :: rest =>
    let p := s.step a
    let q := p.1.run rest
    (q.1, p.2 ++ q.2)

/-!
Shallow embedding of the helper sendCommandWithRetry (part_003, bottom of
the file): a while-true loop that awaits device.sendCommand, counts
failures, re-throws the current error once retryCount reaches maxRetries,
and otherwise sleeps a fixed retryDelay and tries again.  The environment
supplies the outcome of each attempt as a function of the attempt index.
-/

def retryDelay : Nat := 2000

/-- Result of a sendCommandWithRetry invocation: the surfaced outcome, how
many sendCommand attempts were made, and the total milliseconds spent in
between-attempt waits. -/
structure RetryTrace where
  result : Except SerialResponse SerialResponse
  attemptsMade : Nat
  waitsMs : Nat
deriving Repr

/-- The while-true loop of sendCommandWithRetry, with the source's
attempt index and retryCount made explicit. -/
def retryGo (outcome : Nat → Except SerialResponse SerialResponse) (maxRetries : Nat)
    (attemptIdx retryCount : Nat) : RetryTrace :=
  match outcome attemptIdx with
  | Except.ok r =>
    { result := Except.ok r, attemptsMade := attemptIdx + 1, waitsMs := retryCount * retryDelay }
  | Except.error e =>
    if h : retryCount + 1 ≥ maxRetries then
      { result := Except.error e, attemptsMade := attemptIdx + 1,
        waitsMs := retryCount * retryDelay }
    else
      retryGo outcome maxRetries (attemptIdx + 1) (retryCount + 1)
termination_by maxRetries - retryCount
decreasing_by omega

/-- sendCommandWithRetry(device, command, maxRetries): starts the loop at
the first attempt with retryCount zero. -/
def sendCommandWithRetry (outcome : Nat → Except SerialResponse SerialResponse)
    (maxRetries : Nat) : RetryTrace :=
  retryGo outcome maxRetries 0 0

/-!
Concrete states used by the closed theorems below, plus the predicates the
quantified theorems are stated with.
-/

/-- The manager after construction with the device file absent: the
presence check armed and the first reconnection episode started. -/
def bootAbsent : DeviceController × List Ev := DeviceController.create false

/-- Autonomous continuation in which the transport open keeps failing: the
scheduled retry fires, the reopened port errors, the presence check ticks
with the device present, further error events arrive, the (stale) timer is
polled again and a command is submitted. -/
def failingEpisodeActs : List DCAct :=
  [DCAct.fireTimer, DCAct.evError, DCAct.deviceCheck true, DCAct.evError,
   DCAct.fireTimer, DCAct.send { pid := 9, command := "4" }]

/-- A state with a fired-but-never-cleared reconnect timer handle, the
manager disconnected and no open attempt in progress.  Reached for example
by bootAbsent after fireTimer and an open failure. -/
def Stuck (s : DeviceController) : Prop :=
  s.reconnectTimer = some TimerHandle.fired ∧ s.isConnected = false ∧ s.portOpening = false

/-- The manager constructed with the device absent, after its first retry
timer fired and the recreated port's open failed: a reachable state whose
timer field holds a fired handle. -/
def stalledState : DeviceController :=
  (bootAbsent.1.run [DCAct.fireTimer, DCAct.evError]).1

/-- Connected manager with an open port, the presence check armed and one
queued command (used to exercise cleanup). -/
def cleanupOpenState : DeviceController :=
  { portPresent := true, portOpen := true, portOpening := false, isConnected := true,
    reconnectTimer := none, reconnectAttempts := 0,
    commandQueue := [{ pid := 7, command := "4" }], inflight := [], deviceCheckOn := true }

/-- Disconnected manager with a pending reconnection episode (used to
exercise a failing connect call). -/
def connectFailState : DeviceController :=
  { portPresent := true, portOpen := false, portOpening := false, isConnected := false,
    reconnectTimer := some TimerHandle.pending, reconnectAttempts := 3,
    commandQueue := [], inflight := [], deviceCheckOn := true }

/-- Disconnected manager whose port is opening (used to exercise queueing
followed by the open event). -/
def queueDemoState : DeviceController :=
  { portPresent := true, portOpen := false, portOpening := true, isConnected := false,
    reconnectTimer := some TimerHandle.pending, reconnectAttempts := 2,
    commandQueue := [], inflight := [], deviceCheckOn := true }

/-- Decoded events used by the listener scenarios. -/
def evA : ChainEvent := { garbageCanId := 1, collector := "a", value := 10 }

def evB : ChainEvent := { garbageCanId := 2, collector := "b", value := 20 }

def evC : ChainEvent := { garbageCanId := 3, collector := "c", value := 30 }

/-- Listener with cursor 100 and one scan that observed tip 105 and is
awaiting its getLogs result. -/
def listenerAwaitLogsState : BlockchainListener :=
  { lastBlockChecked := 100, pollingOn := true,
    scans := [{ sid := 0, phase := ScanPhase.awaitLogs 105 }] }

/-- Listener with cursor 100 and one scan that fetched up to tip 105 and
still has two dispatches to attempt. -/
def listenerMidDispatchState : BlockchainListener :=
  { lastBlockChecked := 100, pollingOn := true,
    scans := [{ sid := 0, phase := ScanPhase.dispatching 105 [evA, evB] }] }

/-- The timer firing and the provider answering the second scan while the
first is still mid-dispatch. -/
def overlappingScanActs : List LAct :=
  [LAct.timerTick 1, LAct.tipArrives 1 110, LAct.logsArrive 1 (some [evC])]

/-- Success discipline of a settlement: fulfilled promises carry
success=true, rejections carry success=false; other effects are
unconstrained. -/
def evOutcomeOk : Ev → Bool
  | Ev.resolveCmd _ r => r.success
  | Ev.rejectCmd _ r => !r.success
  | Ev.resolveConnect r => r.success
  | Ev.rejectConnect r => !r.success
  | _ => true

/-!
Theorems.  Each claim of the specification gets exactly one theorem, named
after the claim.
-/

/-- C2.  The claim asserts that with initialDelay 1000ms and maxDelay
30000ms, N consecutive open failures produce scheduled delays
min(1000·2^k, 30000) for every k < N (1000, 2000, 4000 for N=3).  The code
violates this: the setTimeout callback in attemptReconnect never resets
the reconnectTimer field, so after the first retry fires the stale handle
makes every subsequent startReconnection call a no-op.  Along the episode
in which every open fails the only delay ever scheduled is the initial
1000ms one, the attempt counter stops at 1, and the stale fired handle
remains; the part of the claim about resetting the counter to 0 after a
successful open does hold (final conjunct). -/
theorem C2_backoff_schedule_stalls_after_first_retry :
    schedOf (bootAbsent.2 ++ (bootAbsent.1.run failingEpisodeActs).2) = [1000]
      ∧ (bootAbsent.1.run failingEpisodeActs).1.reconnectAttempts = 1
      ∧ (bootAbsent.1.run failingEpisodeActs).1.reconnectTimer = some TimerHandle.fired
      ∧ (bootAbsent.1.run [DCAct.fireTimer, DCAct.evOpen]).1.reconnectAttempts = 0 := by
  decide

/-- C9.  The dispatch retry wrapper with maxRetries=3 and fixed 2000ms
delay: when every attempt fails it makes exactly 3 attempts, waits twice
(2·2000ms) and surfaces the third failure; when the first attempt succeeds
it returns that success after 1 attempt and no waits; when only the third
attempt succeeds it returns that success after 3 attempts and 2 waits. -/
theorem C9_retry_wrapper_three_attempts (f : Nat → SerialResponse) (r : SerialResponse) :
    sendCommandWithRetry (fun i => Except.error (f i)) 3 =
        { result := Except.error (f 2), attemptsMade := 3, waitsMs := 4000 }
      ∧ sendCommandWithRetry (fun i => if i = 0 then Except.ok r else Except.error (f i)) 3 =
        { result := Except.ok r, attemptsMade := 1, waitsMs := 0 }
      ∧ sendCommandWithRetry (fun i => if i < 2 then Except.error (f i) else Except.ok r) 3 =
        { result := Except.ok r, attemptsMade := 3, waitsMs := 4000 } := by
  refine ⟨?_, ?_, ?_⟩ <;> simp [sendCommandWithRetry, retryGo, retryDelay]

/-- C4 counterexample.  From a connected state with an open port, cleanup
rejects the queued command and closes the port, but the close event this
triggers (the listeners stay attached) runs the close handler, which
starts a fresh reconnection episode: afterwards a reconnect timer is
pending and a 1000ms delay was scheduled, refuting the claim that cleanup
leaves no active timers. -/
theorem C4_cleanup_rearms_timer_counterexample :
    (cleanupOpenState.run [DCAct.cleanupCall, DCAct.evClose]).1.reconnectTimer =
        some TimerHandle.pending
      ∧ schedOf (cleanupOpenState.run [DCAct.cleanupCall, DCAct.evClose]).2 = [1000] := by
  decide

/-- C4 as amended: cleanup rejects every queued command with the
shutting-down failure (in order, with the source's message), clears both
the reconnect timer field and the presence-check interval, and a second
immediate cleanup emits nothing; however, when the port was open, the
close event triggered by cleanup's own port.close subsequently re-arms a
pending reconnect timer, so a timer can be active after cleanup. -/
theorem C4_cleanup_settles_queue_and_close_event_rearms (s : DeviceController) :
    (s.cleanup).1.reconnectTimer = none
      ∧ (s.cleanup).1.deviceCheckOn = false
      ∧ (s.cleanup).1.commandQueue = []
      ∧ (s.cleanup).2 =
          (s.commandQueue.map fun c =>
            Ev.rejectCmd c.pid
              { success := false,
                message := "Command " ++ c.command ++ " failed: " ++ "Application shutting down" })
          ++ (if s.portPresent && s.portOpen then [Ev.closePort] else [])
      ∧ ((s.cleanup).1.cleanup).2 = []
      ∧ (s.portPresent = true → s.portOpen = true →
          ((s.cleanup).1.onClose).1.reconnectTimer = some TimerHandle.pending) := by
  unfold DeviceController.cleanup DeviceController.rejectAllQueuedCommands
  by_cases hp : s.portPresent <;> by_cases ho : s.portOpen <;>
    simp [hp, ho, DeviceController.onClose, DeviceController.startReconnection,
      DeviceController.attemptReconnect, maxAttemptsReached, MAX_RECONNECT_ATTEMPTS]

/-- Witness for C4_cleanup_settles_queue_and_close_event_rearms at the
concrete connected open state with one queued command. -/
theorem C4_cleanup_amended_witness :
    ((cleanupOpenState.cleanup).1.cleanup).2 = []
      ∧ ((cleanupOpenState.cleanup).1.onClose).1.reconnectTimer = some TimerHandle.pending :=
  ⟨(C4_cleanup_settles_queue_and_close_event_rearms cleanupOpenState).2.2.2.2.1,
   (C4_cleanup_settles_queue_and_close_event_rearms cleanupOpenState).2.2.2.2.2 rfl rfl⟩

/-- C5 counterexample.  A scan from cursor 100 observed tip 105 and its
getLogs fetch throws: the outer catch swallows the error, but the cursor
assignment (which sits before the catch) is skipped, so lastCheckedPosition
stays 100 instead of advancing to the observed tip 105 as claimed. -/
theorem C5_fetch_error_cursor_not_advanced_counterexample :
    (listenerAwaitLogsState.step (LAct.logsArrive 0 none)).1.lastBlockChecked = 100
      ∧ (listenerAwaitLogsState.step (LAct.logsArrive 0 none)).1.lastBlockChecked ≠ 105
      ∧ (listenerAwaitLogsState.step (LAct.logsArrive 0 none)).2 = [LEv.logError] := by
  decide

/-- C6 counterexample.  The claim says a new scan never begins before the
previous scan's dispatches have all been attempted.  With scan 0 still
mid-dispatch (two dispatches pending for tip 105), the poll timer fires:
scan 1 starts, fetches its range (getLogs 101..110) and begins dispatching
while scan 0 is still unfinished — two scans overlap. -/
theorem C6_overlapping_scans_counterexample :
    (listenerMidDispatchState.run overlappingScanActs).1.scans =
        [{ sid := 0, phase := ScanPhase.dispatching 105 [evA, evB] },
         { sid := 1, phase := ScanPhase.dispatching 110 [evC] }]
      ∧ (listenerMidDispatchState.run overlappingScanActs).2 =
        [LEv.getLogs 101 110, LEv.dispatchStart evC] := by
  decide

/-- C8 counterexample.  connect() from a disconnected state with a pending
reconnection episode, where the open fails: the promise is rejected with
the connect error, but far from starting or continuing reconnection, the
call cancelled the pending retry timer and scheduled nothing — afterwards
no retry is scheduled at all. -/
theorem C8_failed_connect_schedules_no_retry_counterexample :
    (connectFailState.connect (some "boom")).2 =
        [Ev.rejectConnect { success := false, message := "Failed to open port: boom" }]
      ∧ (connectFailState.connect (some "boom")).1.reconnectTimer = none
      ∧ schedOf (connectFailState.connect (some "boom")).2 = [] := by
  decide

/-- Scheduled delays distribute over concatenation of effect lists. -/
theorem schedOf_append (l1 l2 : List Ev) : schedOf (l1 ++ l2) = schedOf l1 ++ schedOf l2 := by
  simp [schedOf]

/-- Port writes distribute over concatenation of effect lists. -/
theorem writesOf_append (l1 l2 : List Ev) :
    writesOf (l1 ++ l2) = writesOf l1 ++ writesOf l2 := by
  simp [writesOf]

/-- Settlement identifiers distribute over concatenation of effect
lists. -/
theorem resolvedIds_append (l1 l2 : List Ev) :
    resolvedIds (l1 ++ l2) = resolvedIds l1 ++ resolvedIds l2 := by
  simp [resolvedIds]

/-- With the Infinity bound of the authoritative variant the give-up guard
never triggers. -/
theorem maxAttemptsReached_false (n : Nat) : maxAttemptsReached n = false := rfl

/-- A finished scan is no longer in flight. -/
theorem findScan_removeScan (sid : Nat) (l : List Scan) :
    findScan sid (removeScan sid l) = none := by
  simp [findScan, removeScan, List.find?_eq_none, List.mem_filter]

/-- C5 as amended: when the getLogs fetch of a scan throws, the error is
swallowed (the scan just ends with a logged error and the listener keeps
polling), but the cursor does not advance — the same range is re-fetched
from the unchanged lastCheckedPosition on the next tick, rather than the
failing range being skipped. -/
theorem C5_fetch_error_swallowed_cursor_unchanged (st : BlockchainListener) (sid tip : Nat)
    (h : findScan sid st.scans = some (ScanPhase.awaitLogs tip)) :
    (st.step (LAct.logsArrive sid none)).1.lastBlockChecked = st.lastBlockChecked
      ∧ (st.step (LAct.logsArrive sid none)).2 = [LEv.logError]
      ∧ findScan sid (st.step (LAct.logsArrive sid none)).1.scans = none
      ∧ (st.step (LAct.logsArrive sid none)).1.pollingOn = st.pollingOn := by
  simp [BlockchainListener.step, h, findScan_removeScan]

/-- Witness for C5_fetch_error_swallowed_cursor_unchanged at the concrete
listener state with cursor 100 awaiting logs for tip 105. -/
theorem C5_fetch_error_amended_witness :
    (listenerAwaitLogsState.step (LAct.logsArrive 0 none)).1.lastBlockChecked =
        listenerAwaitLogsState.lastBlockChecked
      ∧ (listenerAwaitLogsState.step (LAct.logsArrive 0 none)).2 = [LEv.logError] :=
  ⟨(C5_fetch_error_swallowed_cursor_unchanged listenerAwaitLogsState 0 105 (by decide)).1,
   (C5_fetch_error_swallowed_cursor_unchanged listenerAwaitLogsState 0 105 (by decide)).2.1⟩

/-- C6 as amended: the poll timer starts a new checkForEvents invocation
on every tick while polling is on, regardless of whether a previous scan
is still in progress — the in-flight scans are left untouched and the new
scan is simply added, so scans may overlap whenever one outlasts the
polling interval.  (Within a single scan, dispatches are sequential in
fetch order.) -/
theorem C6_timer_spawns_scan_unconditionally (st : BlockchainListener) (sid : Nat)
    (h : st.pollingOn = true) :
    (st.step (LAct.timerTick sid)).1.scans =
        st.scans ++ [{ sid := sid, phase := ScanPhase.awaitTip }]
      ∧ (st.step (LAct.timerTick sid)).1.lastBlockChecked = st.lastBlockChecked
      ∧ (st.step (LAct.timerTick sid)).2 = [] := by
  simp [BlockchainListener.step, h]

/-- Witness for C6_timer_spawns_scan_unconditionally at the concrete
listener state with a scan still mid-dispatch. -/
theorem C6_timer_spawn_amended_witness :
    (listenerMidDispatchState.step (LAct.timerTick 1)).1.scans =
        listenerMidDispatchState.scans ++ [{ sid := 1, phase := ScanPhase.awaitTip }] :=
  (C6_timer_spawns_scan_unconditionally listenerMidDispatchState 1 rfl).1

/-- C8 as amended: when the transport open fails, connect() rejects with
the connect error but does not itself start or continue the reconnection
state machine — it resets the attempt counter and cancels any pending
retry timer, scheduling nothing; recovery relies on the periodic
device-presence check, whose next tick with the device present starts a
fresh episode (initial 1000ms delay, since the counter was reset). -/
theorem C8_failed_connect_rejects_without_reconnection (s : DeviceController) (m : String)
    (h1 : s.isConnected = false) (h2 : s.portPresent = true) (h3 : s.deviceCheckOn = true) :
    (s.connect (some m)).2 =
        [Ev.rejectConnect { success := false, message := "Failed to open port: " ++ m }]
      ∧ (s.connect (some m)).1.reconnectTimer = none
      ∧ (s.connect (some m)).1.reconnectAttempts = 0
      ∧ ((s.connect (some m)).1.deviceCheckTick true).2 = [Ev.schedTimer 1000]
      ∧ ((s.connect (some m)).1.deviceCheckTick true).1.reconnectTimer =
          some TimerHandle.pending := by
  simp [DeviceController.connect, h1, h2, h3, DeviceController.deviceCheckTick,
    DeviceController.startReconnection, DeviceController.attemptReconnect,
    maxAttemptsReached_false, INITIAL_RECONNECT_DELAY, MAX_RECONNECT_DELAY]

/-- Witness for C8_failed_connect_rejects_without_reconnection at the
concrete disconnected state with a pending episode. -/
theorem C8_failed_connect_amended_witness :
    (connectFailState.connect (some "boom")).1.reconnectTimer = none
      ∧ ((connectFailState.connect (some "boom")).1.deviceCheckTick true).2 =
          [Ev.schedTimer 1000] :=
  ⟨(C8_failed_connect_rejects_without_reconnection connectFailState "boom" rfl rfl rfl).2.1,
   (C8_failed_connect_rejects_without_reconnection connectFailState "boom" rfl rfl rfl).2.2.2.1⟩

/-- A sendCommand call on a disconnected manager appends the command to
the queue, leaves connectivity, port status and inflight writes unchanged
(only the reconnect timer may change) and issues no port write. -/
theorem sendCommand_disconnected (s : DeviceController) (c : PendingCommand)
    (h : s.isConnected = false) :
    (s.sendCommand c).1.commandQueue = s.commandQueue ++ [c]
      ∧ (s.sendCommand c).1.isConnected = false
      ∧ (s.sendCommand c).1.portPresent = s.portPresent
      ∧ (s.sendCommand c).1.portOpening = s.portOpening
      ∧ (s.sendCommand c).1.inflight = s.inflight
      ∧ writesOf (s.sendCommand c).2 = [] := by
  cases ht : s.reconnectTimer <;>
    simp [DeviceController.sendCommand, h, DeviceController.startReconnection, ht,
      DeviceController.attemptReconnect, maxAttemptsReached_false, writesOf]

/-- Draining a list of dequeued commands on a connected manager with a
live port writes exactly those commands, in order, and stays connected. -/
theorem drain_writes (q : List PendingCommand) (s : DeviceController)
    (hc : s.isConnected = true) (hp : s.portPresent = true) :
    writesOf (DeviceController.drain s q).2 = (q.map fun c => (c.pid, c.command))
      ∧ (DeviceController.drain s q).1.isConnected = true
      ∧ (DeviceController.drain s q).1.portPresent = true := by
  induction q generalizing s with
  | nil => simp [DeviceController.drain, writesOf, hc, hp]
  | cons c rest ih =>
    have hstep : s.executeCommand c =
        ({ s with inflight := s.inflight ++ [c] }, [Ev.write c.pid c.command]) := by
      simp [DeviceController.executeCommand, hc, hp]
    obtain ⟨h1, h2, h3⟩ := ih { s with inflight := s.inflight ++ [c] } hc hp
    simp only [DeviceController.drain, hstep]
    refine ⟨?_, h2, h3⟩
    rw [writesOf_append, h1]
    simp [writesOf]

/-- C1.  Commands submitted through sendCommand while the manager is not
connected are queued, and when the transport then reports open the whole
queue is drained: the port writes are exactly the submitted commands, in
submission order, after any commands that were already queued — strict
FIFO, no reordering, no command executed out of submission order. -/
theorem C1_fifo_commands_executed_in_submission_order (s : DeviceController)
    (cs : List PendingCommand) (hc : s.isConnected = false) (hp : s.portPresent = true)
    (ho : s.portOpening = true) :
    writesOf (s.run (cs.map DCAct.send ++ [DCAct.evOpen])).2 =
      ((s.commandQueue ++ cs).map fun c => (c.pid, c.command)) := by
  induction cs generalizing s with
  | nil =>
    simp only [List.map_nil, List.nil_append, DeviceController.run, DeviceController.step,
      List.append_nil]
    have hopen : s.onOpen =
        DeviceController.drain
          { s with portOpening := false, portOpen := true, isConnected := true,
                   reconnectAttempts := 0, commandQueue := [] } s.commandQueue := by
      simp [DeviceController.onOpen, ho, DeviceController.processCommandQueue]
    rw [hopen]
    have := drain_writes s.commandQueue
      { s with portOpening := false, portOpen := true, isConnected := true,
               reconnectAttempts := 0, commandQueue := [] } rfl hp
    rw [this.1]
  | cons c rest ih =>
    obtain ⟨hq, hc1, hp1, ho1, _, hw⟩ := sendCommand_disconnected s c hc
    simp only [List.map_cons, List.cons_append, DeviceController.run, DeviceController.step,
      List.append_eq]
    rw [writesOf_append, hw, List.nil_append]
    rw [ih (s.sendCommand c).1 hc1 (hp1.trans hp) (ho1.trans ho), hq]
    simp

/-- Witness for C1_fifo_commands_executed_in_submission_order: three
commands queued while disconnected are written in exactly that order once
the port opens. -/
theorem C1_fifo_witness :
    writesOf (queueDemoState.run
        ([⟨0, "1"⟩, ⟨1, "2"⟩, ⟨2, "3"⟩].map DCAct.send ++ [DCAct.evOpen])).2 =
      [(0, "1"), (1, "2"), (2, "3")] := by
  have h := C1_fifo_commands_executed_in_submission_order queueDemoState
    [⟨0, "1"⟩, ⟨1, "2"⟩, ⟨2, "3"⟩] rfl rfl rfl
  simpa using h

/-- One autonomous action (a port event, the timer, a presence tick, a
queued command, a write callback — anything except a manual connect() or
cleanup() call) from a state whose timer field holds a fired handle
schedules nothing and leaves the state stuck: the stale handle blocks the
null check in startReconnection and in the presence check. -/
theorem stuck_step_no_reschedule (s : DeviceController) (a : DCAct)
    (hs : Stuck s) (ha : a.isAutonomous = true) :
    Stuck (s.step a).1 ∧ schedOf (s.step a).2 = [] := by
  obtain ⟨h1, h2, h3⟩ := hs
  cases a with
  | evOpen =>
    simp [DeviceController.step, DeviceController.onOpen, h3, Stuck, h1, h2, schedOf]
  | evError =>
    simp [DeviceController.step, DeviceController.onError,
      DeviceController.startReconnection, h1, Stuck, schedOf]
  | evClose =>
    simp [DeviceController.step, DeviceController.onClose,
      DeviceController.startReconnection, h1, Stuck, h3, schedOf]
  | fireTimer =>
    simp [DeviceController.step, DeviceController.fireReconnectTimer, h1, Stuck, h2, h3,
      schedOf]
  | deviceCheck b =>
    cases hd : s.deviceCheckOn <;>
      simp [DeviceController.step, DeviceController.deviceCheckTick, hd, h1, h2, Stuck, h3,
        schedOf]
  | send c =>
    simp [DeviceController.step, DeviceController.sendCommand, h2,
      DeviceController.startReconnection, h1, Stuck, h3, schedOf]
  | writeDone pid err =>
    cases htf : takeFirst pid s.inflight with
    | none =>
      simp [DeviceController.step, DeviceController.onWriteDone, htf, Stuck, h1, h2, h3,
        schedOf]
    | some p =>
      cases err <;>
        simp [DeviceController.step, DeviceController.onWriteDone, htf, Stuck, h1, h2, h3,
          schedOf]
  | connectCall e => simp [DCAct.isAutonomous] at ha
  | cleanupCall => simp [DCAct.isAutonomous] at ha

/-- C3.  The claim asserts the manager has no terminal failure state: from
every reachable disconnected state a further reconnection attempt is
always eventually scheduled.  The code violates this: the timer callback
never clears the reconnectTimer field, so once a retry has fired and the
reopen failed, the stale fired handle blocks startReconnection (and the
presence check) forever — along every autonomous continuation no further
reconnect timer is ever scheduled and the state stays stuck.  Such a state
is reachable (see C3_stale_timer_witness: it arises from construction with
the device absent after one fired retry and one open failure). -/
theorem C3_stale_timer_blocks_reconnection_forever (s : DeviceController) (acts : List DCAct)
    (hs : Stuck s) (ha : ∀ a ∈ acts, a.isAutonomous = true) :
    Stuck (s.run acts).1 ∧ schedOf (s.run acts).2 = [] := by
  induction acts generalizing s with
  | nil => exact ⟨hs, rfl⟩
  | cons a rest ih =>
    have hstep := stuck_step_no_reschedule s a hs (ha a (by simp))
    have hrest := ih (s.step a).1 hstep.1 fun b hb => ha b (by simp [hb])
    refine ⟨hrest.1, ?_⟩
    simp only [DeviceController.run]
    rw [schedOf_append, hstep.2, hrest.2]
    rfl

/-- Witness for C3_stale_timer_blocks_reconnection_forever: the concrete
reachable stalled state, with the concrete autonomous continuation in
which the device keeps failing, never schedules another attempt. -/
theorem C3_stale_timer_witness :
    Stuck stalledState
      ∧ Stuck (stalledState.run failingEpisodeActs).1
      ∧ schedOf (stalledState.run failingEpisodeActs).2 = [] := by
  have h := C3_stale_timer_blocks_reconnection_forever stalledState failingEpisodeActs
    ⟨rfl, rfl, rfl⟩ (by decide)
  exact ⟨⟨rfl, rfl, rfl⟩, h.1, h.2⟩

/-- Every settlement emitted while draining dequeued commands obeys the
success-flag discipline. -/
theorem drain_all_outcomeOk (q : List PendingCommand) (s : DeviceController) :
    (DeviceController.drain s q).2.all evOutcomeOk = true := by
  induction q generalizing s with
  | nil => simp [DeviceController.drain]
  | cons c rest ih =>
    by_cases hc : s.isConnected <;> by_cases hp : s.portPresent <;>
      simp [DeviceController.drain, DeviceController.executeCommand, hc, hp, evOutcomeOk, ih]

/-- C10.  For every call to connect() or sendCommand() (and in fact for
every effect the controller ever emits, including deferred settlements of
queued commands, purge rejections and write callbacks): every fulfilled
promise carries a response with success=true and every rejection carries a
response with success=false, so a caller can determine the outcome from
the success flag alone. -/
theorem C10_settlement_success_flag_discipline (s : DeviceController) (a : DCAct) :
    (s.step a).2.all evOutcomeOk = true := by
  cases a with
  | evOpen =>
    by_cases ho : s.portOpening <;>
      simp [DeviceController.step, DeviceController.onOpen, ho,
        DeviceController.processCommandQueue, drain_all_outcomeOk]
  | evError =>
    cases ht : s.reconnectTimer <;>
      simp [DeviceController.step, DeviceController.onError,
        DeviceController.startReconnection, ht, DeviceController.attemptReconnect,
        maxAttemptsReached_false, evOutcomeOk]
  | evClose =>
    cases ht : s.reconnectTimer <;>
      simp [DeviceController.step, DeviceController.onClose,
        DeviceController.startReconnection, ht, DeviceController.attemptReconnect,
        maxAttemptsReached_false, evOutcomeOk]
  | fireTimer =>
    cases ht : s.reconnectTimer with
    | none => simp [DeviceController.step, DeviceController.fireReconnectTimer, ht]
    | some h =>
      by_cases hpp : (s.portPresent && s.portOpen) = true <;> cases h <;>
        simp [DeviceController.step, DeviceController.fireReconnectTimer, ht,
          DeviceController.recreatePort, hpp, evOutcomeOk]
  | deviceCheck b =>
    by_cases hd : s.deviceCheckOn
    · by_cases hcon : s.isConnected
      · by_cases hpp : (s.portPresent && s.portOpen) = true <;> cases b <;>
          simp [DeviceController.step, DeviceController.deviceCheckTick, hd, hcon, hpp,
            evOutcomeOk]
      · cases ht : s.reconnectTimer <;> cases b <;>
          simp [DeviceController.step, DeviceController.deviceCheckTick, hd, hcon, ht,
            DeviceController.startReconnection, DeviceController.attemptReconnect,
            maxAttemptsReached_false, evOutcomeOk]
    · simp [DeviceController.step, DeviceController.deviceCheckTick, hd]
  | send c =>
    by_cases hc : s.isConnected
    · by_cases hp : s.portPresent <;>
        simp [DeviceController.step, DeviceController.sendCommand, hc,
          DeviceController.executeCommand, hp, evOutcomeOk]
    · cases ht : s.reconnectTimer <;>
        simp [DeviceController.step, DeviceController.sendCommand, hc,
          DeviceController.startReconnection, ht, DeviceController.attemptReconnect,
          maxAttemptsReached_false, evOutcomeOk]
  | writeDone pid err =>
    cases htf : takeFirst pid s.inflight with
    | none => simp [DeviceController.step, DeviceController.onWriteDone, htf]
    | some p =>
      cases err <;>
        simp [DeviceController.step, DeviceController.onWriteDone, htf, evOutcomeOk]
  | connectCall e =>
    by_cases hc : s.isConnected
    · simp [DeviceController.step, DeviceController.connect, hc, evOutcomeOk]
    · by_cases hp : s.portPresent
      · cases e with
        | none =>
          simp [DeviceController.step, DeviceController.connect, hc, hp,
            DeviceController.processCommandQueue, drain_all_outcomeOk, evOutcomeOk,
            List.all_append]
        | some m =>
          simp [DeviceController.step, DeviceController.connect, hc, hp, evOutcomeOk]
      · simp [DeviceController.step, DeviceController.connect, hc, hp, evOutcomeOk]
  | cleanupCall =>
    by_cases hp : s.portPresent <;> by_cases ho : s.portOpen <;>
      simp [DeviceController.step, DeviceController.cleanup,
        DeviceController.rejectAllQueuedCommands, hp, ho, evOutcomeOk, List.all_append,
        List.all_map, Function.comp]

/-- The write callback consumes exactly one inflight command: removing the
first entry with a given identifier is a permutation-preserving split. -/
theorem takeFirst_some_perm (pid : Nat) (l : List PendingCommand) (c : PendingCommand)
    (rest : List PendingCommand) (h : takeFirst pid l = some (c, rest)) :
    List.Perm l (c :: rest) := by
  induction l generalizing rest with
  | nil => simp [takeFirst] at h
  | cons d tl ih =>
    by_cases hd : d.pid = pid
    · simp [takeFirst, hd] at h
      obtain ⟨rfl, rfl⟩ := h
      exact List.Perm.refl _
    · rw [takeFirst, if_neg hd] at h
      cases htf : takeFirst pid tl with
      | none => rw [htf] at h; simp at h
      | some p =>
        obtain ⟨d2, l2⟩ := p
        rw [htf] at h
        simp at h
        obtain ⟨rfl, rfl⟩ := h
        exact ((ih l2 htf).cons d).trans (List.Perm.swap d2 d l2)

/-- Accounting of the drain loop: the dequeued commands either move into
the inflight list (a write was issued) or are settled immediately; nothing
is dropped and nothing is settled that was not owed. -/
theorem drain_obligations (q : List PendingCommand) (s : DeviceController) :
    (DeviceController.drain s q).1.commandQueue = s.commandQueue
      ∧ List.Perm (s.inflight.map PendingCommand.pid ++ q.map PendingCommand.pid)
          ((DeviceController.drain s q).1.inflight.map PendingCommand.pid
            ++ resolvedIds (DeviceController.drain s q).2) := by
  induction q generalizing s with
  | nil => simp [DeviceController.drain, resolvedIds]
  | cons c rest ih =>
    by_cases hc : s.isConnected = true
    · by_cases hp : s.portPresent = true
      · have hstep : s.executeCommand c =
            ({ s with inflight := s.inflight ++ [c] }, [Ev.write c.pid c.command]) := by
          simp [DeviceController.executeCommand, hc, hp]
        obtain ⟨h1, h2⟩ := ih { s with inflight := s.inflight ++ [c] }
        refine ⟨by simpa [DeviceController.drain, hstep] using h1, ?_⟩
        simp only [DeviceController.drain, hstep, resolvedIds_append]
        have hre : resolvedIds [Ev.write c.pid c.command] = [] := rfl
        rw [hre, List.nil_append]
        have hshape : s.inflight.map PendingCommand.pid ++ (c :: rest).map PendingCommand.pid
            = ({ s with inflight := s.inflight ++ [c] } :
                DeviceController).inflight.map PendingCommand.pid
              ++ rest.map PendingCommand.pid := by
          simp
        rw [hshape]
        exact h2
      · have hstep : s.executeCommand c =
            (s, [Ev.rejectCmd c.pid
              { success := false, message := "Port is not initialized" }]) := by
          simp [DeviceController.executeCommand, hc, hp]
        obtain ⟨h1, h2⟩ := ih s
        refine ⟨by simpa [DeviceController.drain, hstep] using h1, ?_⟩
        simp only [DeviceController.drain, hstep, resolvedIds_append]
        have hre : resolvedIds [Ev.rejectCmd c.pid
            { success := false, message := "Port is not initialized" }] = [c.pid] := rfl
        rw [hre]
        refine List.perm_middle.trans ?_
        refine ((h2.cons c.pid).trans ?_)
        exact (@List.perm_middle _ c.pid
          ((DeviceController.drain s rest).1.inflight.map PendingCommand.pid)
          (resolvedIds (DeviceController.drain s rest).2)).symm
    · have hstep : s.executeCommand c =
          (s, [Ev.rejectCmd c.pid
            { success := false, message := "Device not connected" }]) := by
        simp [DeviceController.executeCommand, hc]
      obtain ⟨h1, h2⟩ := ih s
      refine ⟨by simpa [DeviceController.drain, hstep] using h1, ?_⟩
      simp only [DeviceController.drain, hstep, resolvedIds_append]
      have hre : resolvedIds [Ev.rejectCmd c.pid
          { success := false, message := "Device not connected" }] = [c.pid] := rfl
      rw [hre]
      refine List.perm_middle.trans ?_
      refine ((h2.cons c.pid).trans ?_)
      exact (@List.perm_middle _ c.pid
        ((DeviceController.drain s rest).1.inflight.map PendingCommand.pid)
        (resolvedIds (DeviceController.drain s rest).2)).symm

/-- A step that leaves the queue and the inflight list unchanged and
settles nothing conserves obligations on the nose. -/
theorem perm_unchanged_step (s t : DeviceController) (evs : List Ev)
    (hq : t.commandQueue = s.commandQueue) (hi : t.inflight = s.inflight)
    (hr : resolvedIds evs = []) :
    List.Perm (s.obligations ++ ([] : List Nat)) (t.obligations ++ resolvedIds evs) := by
  have ht : t.obligations = s.obligations := by
    simp [DeviceController.obligations, hq, hi]
  rw [ht, hr]

/-- A close-only effect list settles nothing. -/
theorem resolvedIds_closePort_if (b : Bool) :
    resolvedIds (if b then [Ev.closePort] else []) = [] := by
  cases b <;> rfl

/-- The purge rejections settle exactly the queued identifiers, in
order. -/
theorem resolvedIds_rejectAll (q : List PendingCommand) (reason : String) :
    resolvedIds (q.map fun c =>
        Ev.rejectCmd c.pid
          { success := false, message := "Command " ++ c.command ++ " failed: " ++ reason })
      = q.map PendingCommand.pid := by
  induction q with
  | nil => rfl
  | cons c rest ih =>
    rw [List.map_cons, resolvedIds, List.filterMap_cons]
    rw [resolvedIds] at ih
    simpa using ih

/-- Appending a fresh element to the queue component commutes with the
concatenated obligation view. -/
theorem perm_enqueue (Q I : List Nat) (x : Nat) :
    List.Perm ((Q ++ I) ++ [x]) ((Q ++ [x]) ++ I) := by
  rw [List.append_assoc, List.append_assoc, List.singleton_append]
  exact List.Perm.append_left Q (List.perm_append_singleton x I)

/-- C7.  Settlement conservation: for every state and every action, the
settlement obligations before the step (queued plus inflight command
identifiers) together with any newly created obligation (a fresh
sendCommand call) are a permutation of the obligations after the step
together with the identifiers settled during the step.  Hence a command's
completion slot is settled exactly when its obligation is consumed: no
command is ever settled twice or both executed and purged (a settlement
always consumes a live obligation), and none is dropped without
settlement (obligations never vanish except through a settlement). -/
theorem C7_exactly_one_settlement_per_command (s : DeviceController) (a : DCAct) :
    List.Perm (s.obligations ++ a.newIds)
      ((s.step a).1.obligations ++ resolvedIds (s.step a).2) := by
  cases a with
  | evOpen =>
    by_cases ho : s.portOpening = true
    · obtain ⟨h1, h2⟩ := drain_obligations s.commandQueue
        { s with portOpening := false, portOpen := true, isConnected := true,
                 reconnectAttempts := 0, commandQueue := [] }
      simp only [DeviceController.step, DeviceController.onOpen, if_pos ho,
        DeviceController.processCommandQueue, DeviceController.obligations, DCAct.newIds,
        List.append_nil, h1]
      refine List.perm_append_comm.trans ?_
      simpa using h2
    · refine perm_unchanged_step s _ _ ?_ ?_ ?_ <;>
        simp [DeviceController.step, DeviceController.onOpen, ho, resolvedIds]
  | evError =>
    refine perm_unchanged_step s _ _ ?_ ?_ ?_ <;>
      cases ht : s.reconnectTimer <;>
        simp [DeviceController.step, DeviceController.onError,
          DeviceController.startReconnection, ht, DeviceController.attemptReconnect,
          maxAttemptsReached_false, resolvedIds]
  | evClose =>
    refine perm_unchanged_step s _ _ ?_ ?_ ?_ <;>
      cases ht : s.reconnectTimer <;>
        simp [DeviceController.step, DeviceController.onClose,
          DeviceController.startReconnection, ht, DeviceController.attemptReconnect,
          maxAttemptsReached_false, resolvedIds]
  | fireTimer =>
    refine perm_unchanged_step s _ _ ?_ ?_ ?_ <;>
      (cases ht : s.reconnectTimer with
       | none =>
         simp [DeviceController.step, DeviceController.fireReconnectTimer, ht, resolvedIds]
       | some h =>
         by_cases hpp : (s.portPresent && s.portOpen) = true <;> cases h <;>
           simp [DeviceController.step, DeviceController.fireReconnectTimer, ht,
             DeviceController.recreatePort, hpp, resolvedIds])
  | deviceCheck b =>
    refine perm_unchanged_step s _ _ ?_ ?_ ?_ <;>
      (by_cases hd : s.deviceCheckOn = true
       · by_cases hcon : s.isConnected = true
         · by_cases hpp : (s.portPresent && s.portOpen) = true <;> cases b <;>
             simp [DeviceController.step, DeviceController.deviceCheckTick, hd, hcon, hpp,
               resolvedIds]
         · cases ht : s.reconnectTimer <;> cases b <;>
             simp [DeviceController.step, DeviceController.deviceCheckTick, hd, hcon, ht,
               DeviceController.startReconnection, DeviceController.attemptReconnect,
               maxAttemptsReached_false, resolvedIds]
       · simp [DeviceController.step, DeviceController.deviceCheckTick, hd, resolvedIds])
  | send c =>
    by_cases hc : s.isConnected = true
    · by_cases hp : s.portPresent = true
      · simp only [DeviceController.step, DeviceController.sendCommand, hc,
          Bool.not_true, Bool.false_eq_true, if_false, DeviceController.executeCommand, hp,
          DeviceController.obligations, DCAct.newIds]
        have hre : resolvedIds [Ev.write c.pid c.command] = [] := rfl
        simp [hre, List.append_assoc]
      · simp only [DeviceController.step, DeviceController.sendCommand, hc,
          Bool.not_true, Bool.false_eq_true, if_false, DeviceController.executeCommand, hp,
          DeviceController.obligations, DCAct.newIds]
        have hre : resolvedIds [Ev.rejectCmd c.pid
            { success := false, message := "Port is not initialized" }] = [c.pid] := rfl
        simp [hre, hp, List.append_assoc]
    · have hq : ((s.sendCommand c).1.commandQueue = s.commandQueue ++ [c])
          ∧ (s.sendCommand c).1.inflight = s.inflight
          ∧ resolvedIds (s.sendCommand c).2 = [] := by
        cases ht : s.reconnectTimer <;>
          simp [DeviceController.sendCommand, hc, DeviceController.startReconnection, ht,
            DeviceController.attemptReconnect, maxAttemptsReached_false, resolvedIds]
      obtain ⟨hq1, hq2, hq3⟩ := hq
      simp only [DeviceController.step, DeviceController.obligations, DCAct.newIds,
        hq1, hq2, hq3, List.append_nil, List.map_append, List.map_cons, List.map_nil]
      exact perm_enqueue _ _ _
  | writeDone pid err =>
    cases htf : takeFirst pid s.inflight with
    | none =>
      refine perm_unchanged_step s _ _ ?_ ?_ ?_ <;>
        simp [DeviceController.step, DeviceController.onWriteDone, htf, resolvedIds]
    | some p =>
      obtain ⟨c, rest⟩ := p
      have hperm := (takeFirst_some_perm pid s.inflight c rest htf).map PendingCommand.pid
      cases err with
      | none =>
        simp only [DeviceController.step, DeviceController.onWriteDone, htf,
          DeviceController.obligations, DCAct.newIds, List.append_nil]
        have hre : resolvedIds [Ev.resolveCmd c.pid
            { success := true,
              message := "Command " ++ c.command ++ " sent successfully" }] = [c.pid] := rfl
        rw [hre]
        refine (List.Perm.append_left _ (hperm.trans
          (List.perm_append_singleton c.pid (rest.map PendingCommand.pid)).symm)).trans ?_
        rw [List.append_assoc]
      | some m =>
        simp only [DeviceController.step, DeviceController.onWriteDone, htf,
          DeviceController.obligations, DCAct.newIds, List.append_nil]
        have hre : resolvedIds [Ev.rejectCmd c.pid
            { success := false, message := "Failed to send command: " ++ m }] = [c.pid] := rfl
        rw [hre]
        refine (List.Perm.append_left _ (hperm.trans
          (List.perm_append_singleton c.pid (rest.map PendingCommand.pid)).symm)).trans ?_
        rw [List.append_assoc]
  | connectCall e =>
    by_cases hc : s.isConnected = true
    · refine perm_unchanged_step s _ _ ?_ ?_ ?_ <;>
        simp [DeviceController.step, DeviceController.connect, hc, resolvedIds]
    · by_cases hp : s.portPresent = true
      · cases e with
        | some m =>
          refine perm_unchanged_step s _ _ ?_ ?_ ?_ <;>
            simp [DeviceController.step, DeviceController.connect, hc, hp, resolvedIds]
        | none =>
          obtain ⟨h1, h2⟩ := drain_obligations s.commandQueue
            { s with portPresent := true, reconnectAttempts := 0, reconnectTimer := none,
                     portOpen := true, portOpening := false, isConnected := true,
                     commandQueue := [] }
          have hre : resolvedIds [Ev.resolveConnect
              { success := true, message := "Connected successfully" }] = [] := rfl
          simp only [DeviceController.step, DeviceController.connect, hc, hp,
            Bool.not_true, Bool.false_eq_true, if_false,
            DeviceController.processCommandQueue, DeviceController.obligations, DCAct.newIds,
            List.append_nil, resolvedIds_append, h1, hre, List.map_nil, List.nil_append]
          refine List.perm_append_comm.trans ?_
          simpa using h2
      · refine perm_unchanged_step s _ _ ?_ ?_ ?_ <;>
          simp [DeviceController.step, DeviceController.connect, hc, hp, resolvedIds]
  | cleanupCall =>
    by_cases hpp : (s.portPresent && s.portOpen) = true <;>
      · simp only [DeviceController.step, DeviceController.cleanup,
          DeviceController.rejectAllQueuedCommands, hpp, DeviceController.obligations,
          DCAct.newIds, List.append_nil, resolvedIds_append, resolvedIds_rejectAll,
          Bool.false_eq_true, if_false, if_pos]
        first
        | (rw [show resolvedIds [Ev.closePort] = [] from rfl, List.append_nil]
           simpa using List.perm_append_comm)
        | simpa using List.perm_append_comm
